import Mathlib

/-!
Verification of the Athena query construction engine
(`source/log_parser/build_athena_queries.py` of aws-waf-security-automations).

The Python module is a pure string-building pipeline.  We embed it shallowly:

* Python `str` values become Lean `String`s;
* Python `int` becomes `Int`; true division (`/`, which yields a float)
  followed by `str()` is modelled by `pyDivStr`, which renders the exact
  quotient as Python renders the corresponding float (faithful for
  quotients with a terminating decimal expansion of moderate size, the
  domain all the configuration values live in);
* Python `datetime.datetime` becomes the `Datetime` structure below, with
  `timedelta` subtraction implemented through the proleptic-Gregorian
  civil-calendar conversion (the same arithmetic CPython performs);
* `json.loads` (a standard-library call, not part of this repository) is
  modelled by `jsonLoads`, a parser for the input domain the module is
  documented to receive: a flat JSON object with string keys and integer
  values; Python `dict` insertion-order/duplicate-key semantics are kept;
* code that can raise returns `Except PyErr String`; `PyErr.parseError`
  stands for `json.JSONDecodeError` and `PyErr.divisionByZero` for
  `ZeroDivisionError`.

The `log` argument of every function only feeds diagnostic logging and is
dropped.  All remaining arguments and every string literal are transcribed
from the source (adjacent Python string literals juxtaposed in the source
are concatenated exactly as the Python compiler concatenates them).
-/

/-- Python `str.zfill(w)` for the non-negative numerals used here:
left-pad with `'0'` to width `w`. -/
def zfill (w : Nat) (s : String) : String :=
  if w ≤ s.length then s else String.mk (List.replicate (w - s.length) '0') ++ s

/-- Python slicing `s[:-1]`: drop the last character (empty string unchanged). -/
def pyDropLast (s : String) : String :=
  String.mk s.data.dropLast

/-- Python `str(a / b)` for integers `a`, `b` with `b ≠ 0`: true division
yields a float, rendered by its shortest round-tripping decimal.  The
rendering is faithful whenever the exact quotient has a terminating decimal
expansion whose magnitude keeps Python out of scientific notation — the
domain all the threshold/schedule configuration values live in.  Integral
quotients get a trailing `.0`, exactly as `str(100 / 5) = "20.0"`.
Quotients outside that domain (which the verified claims never exercise
concretely) fall back to a fraction rendering. -/
def pyDivStr (a b : Int) : String :=
  let n := a.natAbs
  let m := b.natAbs
  let sign := if (a < 0) = (b < 0) then "" else "-"
  match (List.range 31).find? (fun k => n * 10 ^ k % m = 0) with
  | some 0 => sign ++ (toString (n / m) ++ ".0")
  | some k =>
    let t := n * 10 ^ k / m
    let s := zfill (k + 1) (toString t)
    sign ++ (s.take (s.length - k) ++ ("." ++ s.drop (s.length - k)))
  | none => sign ++ (toString n ++ "/" ++ toString m)

/-- Python `str.lower` on the ASCII grouping-mode strings. -/
def pyCharLower (c : Char) : Char :=
  if 'A' ≤ c ∧ c ≤ 'Z' then Char.ofNat (c.toNat + 32) else c

/-- Python `str.lower` of an ASCII string (`group_by.lower()`). -/
def pyLower (s : String) : String :=
  String.mk (s.data.map pyCharLower)

/-- Error kinds the Python module can raise: `json.JSONDecodeError` from
`json.loads`, and `ZeroDivisionError` from `/` with a zero divisor. -/
inductive PyErr where
  | parseError
  | divisionByZero
deriving DecidableEq, Repr

/-- Python `datetime.datetime` restricted to second precision (the module
only reads `year/month/day/hour`, compares dates, and prints the first 19
characters of `str(timestamp)`, so sub-second fields never influence the
output). -/
structure Datetime where
  year : Nat
  month : Nat
  day : Nat
  hour : Nat
  minute : Nat
  second : Nat
deriving DecidableEq, Repr

namespace Datetime

/-- Python `datetime` comparison: lexicographic on the fields. -/
def lt (a b : Datetime) : Prop :=
  a.year < b.year ∨ (a.year = b.year ∧
    (a.month < b.month ∨ (a.month = b.month ∧
      (a.day < b.day ∨ (a.day = b.day ∧
        (a.hour < b.hour ∨ (a.hour = b.hour ∧
          (a.minute < b.minute ∨ (a.minute = b.minute ∧
            a.second < b.second)))))))))

instance (a b : Datetime) : Decidable (lt a b) := by
  unfold lt; infer_instance

/-- Python `datetime.date()` equality: the year/month/day triple. -/
def sameDate (a b : Datetime) : Prop :=
  a.year = b.year ∧ a.month = b.month ∧ a.day = b.day

instance (a b : Datetime) : Decidable (sameDate a b) := by
  unfold sameDate; infer_instance

/-- Days since 1970-01-01 of a proleptic-Gregorian civil date
(Hinnant's `days_from_civil`; all divisions arranged non-negative). -/
def daysFromCivil (y m d : Int) : Int :=
  let y := if m ≤ 2 then y - 1 else y
  let era := (if 0 ≤ y then y else y - 399) / 400
  let yoe := y - era * 400
  let mp := (m + 9) % 12
  let doy := (153 * mp + 2) / 5 + d - 1
  let doe := yoe * 365 + yoe / 4 - yoe / 100 + doy
  era * 146097 + doe - 719468

/-- Civil date of a day count since 1970-01-01 (Hinnant's `civil_from_days`). -/
def civilFromDays (z : Int) : Int × Int × Int :=
  let z := z + 719468
  let era := (if 0 ≤ z then z else z - 146096) / 146097
  let doe := z - era * 146097
  let yoe := (doe - doe / 1460 + doe / 36524 - doe / 146096) / 365
  let y := yoe + era * 400
  let doy := doe - (365 * yoe + yoe / 4 - yoe / 100)
  let mp := (5 * doy + 2) / 153
  let d := doy - (153 * mp + 2) / 5 + 1
  let m := mp + (if mp < 10 then 3 else -9)
  (y + (if m ≤ 2 then 1 else 0), m, d)

/-- Seconds since the epoch. -/
def toSecs (t : Datetime) : Int :=
  daysFromCivil t.year t.month t.day * 86400
    + t.hour * 3600 + t.minute * 60 + t.second

/-- Datetime of an epoch-second count. -/
def ofSecs (s : Int) : Datetime :=
  let sod := Int.fmod s 86400
  match civilFromDays (Int.fdiv s 86400) with
  | (y, m, d) =>
    { year := y.toNat, month := m.toNat, day := d.toNat,
      hour := (sod / 3600).toNat, minute := ((sod % 3600) / 60).toNat,
      second := (sod % 60).toNat }

/-- Python `t - datetime.timedelta(seconds=n)`. -/
def subSeconds (t : Datetime) (n : Int) : Datetime :=
  ofSecs (toSecs t - n)

/-- The first 19 characters of Python `str(t)`:
`YYYY-MM-DD HH:MM:SS` with every component zero-padded
(the module writes `str(start_timestamp)[0:19]`). -/
def pyStr19 (t : Datetime) : String :=
  zfill 4 (toString t.year) ++ "-" ++ zfill 2 (toString t.month) ++ "-"
    ++ zfill 2 (toString t.day) ++ " " ++ zfill 2 (toString t.hour) ++ ":"
    ++ zfill 2 (toString t.minute) ++ ":" ++ zfill 2 (toString t.second)

end Datetime

/-! ## A model of `json.loads` on the module's input domain -/

/-- Skip JSON whitespace. -/
def jsonSkipWs : List Char → List Char
  | [] => []
  | c :: cs =>
    if c = ' ' ∨ c = '\t' ∨ c = '\n' ∨ c = '\r' then jsonSkipWs cs else c :: cs

/-- Parse the body of a JSON string after the opening quote
(escape sequences are outside the modelled domain). -/
def jsonStringBody : List Char → Option (String × List Char)
  | [] => none
  | c :: cs =>
    if c = '"' then some ("", cs)
    else if c = '\\' then none
    else
      match jsonStringBody cs with
      | some (s, rest) => some (String.mk (c :: s.data), rest)
      | none => none

/-- Split a leading run of decimal digits. -/
def jsonTakeDigits : List Char → List Char × List Char
  | [] => ([], [])
  | c :: cs =>
    if c.isDigit then
      match jsonTakeDigits cs with
      | (ds, rest) => (c :: ds, rest)
    else ([], c :: cs)

/-- Numeric value of a digit run. -/
def digitsToNat (ds : List Char) : Nat :=
  ds.foldl (fun a c => 10 * a + (c.toNat - 48)) 0

/-- Parse a JSON integer (optional minus sign, then digits). -/
def jsonInt : List Char → Option (Int × List Char)
  | [] => none
  | c :: cs =>
    if c = '-' then
      match jsonTakeDigits cs with
      | ([], _) => none
      | (ds, rest) => some (-(digitsToNat ds : Int), rest)
    else
      match jsonTakeDigits (c :: cs) with
      | ([], _) => none
      | (ds, rest) => some ((digitsToNat ds : Int), rest)

/-- Python `dict` insertion: a duplicate key keeps its first position but
takes the new value; a fresh key is appended. -/
def dictInsert (d : List (String × Int)) (k : String) (v : Int) :
    List (String × Int) :=
  if d.any (fun p => p.1 = k) then
    d.map (fun p => if p.1 = k then (k, v) else p)
  else d ++ [(k, v)]

/-- Parse the members of a JSON object after its opening brace, fuelled by
the input length (each member consumes at least one character). -/
def jsonMembers : Nat → List (String × Int) → List Char →
    Option (List (String × Int) × List Char)
  | 0, _, _ => none
  | fuel + 1, acc, cs =>
    match jsonSkipWs cs with
    | '"' :: cs₁ =>
      match jsonStringBody cs₁ with
      | none => none
      | some (k, cs₂) =>
        match jsonSkipWs cs₂ with
        | ':' :: cs₃ =>
          match jsonInt (jsonSkipWs cs₃) with
          | none => none
          | some (v, cs₄) =>
            match jsonSkipWs cs₄ with
            | ',' :: cs₅ => jsonMembers fuel (dictInsert acc k v) cs₅
            | '}' :: cs₅ => some (dictInsert acc k v, cs₅)
            | _ => none
        | _ => none
    | _ => none

/-- Models Python `json.loads` on the documented input domain of
`request_threshold_by_country`: a flat JSON object with string keys and
integer values.  `none` stands for `json.JSONDecodeError`. -/
def jsonLoads (s : String) : Option (List (String × Int)) :=
  match jsonSkipWs s.data with
  | '{' :: cs =>
    match jsonSkipWs cs with
    | '}' :: rest => if jsonSkipWs rest = [] then some [] else none
    | cs₁ =>
      match jsonMembers (s.length + 1) [] cs₁ with
      | some (d, rest) => if jsonSkipWs rest = [] then some d else none
      | none => none
  | _ => none

/-! ## The query-building functions, transcribed from
`build_athena_queries.py` -/

/-- `build_athena_query_part_one_for_cloudfront_logs` (lines 157-186). -/
def build_athena_query_part_one_for_cloudfront_logs
    (database_name table_name : String) : String :=
  "SELECT\n" ++
      "\tclient_ip,\n" ++
      "\tMAX_BY(counter, counter) as max_counter_per_min\n" ++
    " FROM (\n" ++
      "\tWITH logs_with_concat_data AS (\n" ++
        "\t\tSELECT\n" ++
          "\t\t\trequestip as client_ip,\n" ++
          "\t\t\tcast(status as varchar) as status,\n" ++
          "\t\t\tparse_datetime( concat( concat( format_datetime(date, 'yyyy-MM-dd'), '-' ), time ), 'yyyy-MM-dd-HH:mm:ss') AS datetime\n" ++
        "\t\tFROM\n" ++
        "\t\t\t" ++
        database_name ++ "." ++ table_name

/-- `build_athena_query_part_one_for_alb_logs` (lines 189-218). -/
def build_athena_query_part_one_for_alb_logs
    (database_name table_name : String) : String :=
  "SELECT\n" ++
      "\tclient_ip,\n" ++
      "\tMAX_BY(counter, counter) as max_counter_per_min\n" ++
    " FROM (\n" ++
      "\tWITH logs_with_concat_data AS (\n" ++
        "\t\tSELECT\n" ++
          "\t\t\tclient_ip,\n" ++
          "\t\t\ttarget_status_code AS status,\n" ++
          "\t\t\tparse_datetime(time, 'yyyy-MM-dd''T''HH:mm:ss.SSSSSS''Z') AS datetime\n" ++
        "\t\tFROM\n" ++
        "\t\t\t" ++
        database_name ++ "." ++ table_name

/-- `build_select_group_by_columns_for_waf_logs` (lines 221-260): note the
non-emptiness tests are on the raw `request_threshold_by_country` string. -/
def build_select_group_by_columns_for_waf_logs
    (group_by request_threshold_by_country : String) : String × String :=
  if pyLower group_by = "country" ∨
      (pyLower group_by = "none" ∧ 0 < request_threshold_by_country.length) then
    ("httprequest.country as country,", ", country")
  else if pyLower group_by = "uri" then
    ((if request_threshold_by_country.length = 0 then
        "httprequest.uri as uri,"
      else "httprequest.country as country, httprequest.uri as uri,"),
     (if request_threshold_by_country.length = 0 then ", uri"
      else ", country, uri"))
  else if pyLower group_by = "country and uri" then
    ("httprequest.country as country, httprequest.uri as uri,", ", country, uri")
  else ("", "")

/-- `build_athena_query_part_one_for_waf_logs` (lines 263-293). -/
def build_athena_query_part_one_for_waf_logs
    (database_name table_name
      additional_columns_group_one additional_columns_group_two : String) :
    String :=
  "SELECT\n" ++
      "\tclient_ip" ++ additional_columns_group_two ++ ",\n" ++
      "\tMAX_BY(counter, counter) as max_counter_per_min\n" ++
    " FROM (\n" ++
      "\tWITH logs_with_concat_data AS (\n" ++
        "\t\tSELECT\n" ++
          "\t\t\thttprequest.clientip as client_ip," ++ additional_columns_group_one ++ "\n" ++
          "\t\t\tfrom_unixtime(timestamp/1000) as datetime\n" ++
        "\t\tFROM\n" ++
        "\t\t\t" ++
        database_name ++ "." ++ table_name

/-- `build_athena_query_part_two_for_partition` (lines 296-365). -/
def build_athena_query_part_two_for_partition
    (start_timestamp end_timestamp : Datetime) : String :=
  let start_year := start_timestamp.year
  let start_month := start_timestamp.month
  let start_day := start_timestamp.day
  let start_hour := start_timestamp.hour
  let end_year := end_timestamp.year
  let end_month := end_timestamp.month
  let end_day := end_timestamp.day
  let end_hour := end_timestamp.hour
  if Datetime.sameDate start_timestamp end_timestamp then
    "\n\t\tWHERE year = " ++ toString start_year ++ "\n" ++
      "\t\tAND month = " ++ zfill 2 (toString start_month) ++ "\n" ++
      "\t\tAND day = " ++ zfill 2 (toString start_day) ++ "\n" ++
      "\t\tAND hour between " ++
      zfill 2 (toString start_hour) ++ " and " ++ zfill 2 (toString end_hour)
  else if start_year = end_year then
    if start_month = end_month then
      "\n\t\tWHERE year = " ++ toString start_year ++ "\n" ++
        "\t\tAND month = " ++ zfill 2 (toString start_month) ++ "\n" ++
        "\t\tAND (\n" ++
        "\t\t\t(day = " ++ zfill 2 (toString start_day) ++ " AND hour >= " ++ zfill 2 (toString start_hour) ++ ")\n" ++
        "\t\t\tOR (day = " ++ zfill 2 (toString end_day) ++ " AND hour <= " ++ zfill 2 (toString end_hour) ++ ")\n" ++
        "\t\t)\n"
    else
      "\n\t\tWHERE year = " ++ toString start_year ++ "\n" ++
        "\t\tAND (\n" ++
        "\t\t\t(month = " ++ zfill 2 (toString start_month) ++ " AND day = " ++ zfill 2 (toString start_day) ++ " AND hour >= " ++ zfill 2 (toString start_hour) ++ ")\n" ++
        "\t\t\tOR (month = " ++ zfill 2 (toString end_month) ++ " AND day = " ++ zfill 2 (toString end_day) ++ " AND hour <= " ++ zfill 2 (toString end_hour) ++ ")\n" ++
        "\t\t)\n"
  else
    "\n\t\tWHERE (year = " ++ toString start_year ++ "\n" ++
      "\t\t\tAND month = " ++ zfill 2 (toString start_month) ++ "\n" ++
      "\t\t\tAND day = " ++ zfill 2 (toString start_day) ++ "\n" ++
      "\t\t\tAND hour >= " ++ zfill 2 (toString start_hour) ++ ")\n" ++
      "\t\tOR (year = " ++ toString end_year ++ "\n" ++
      "\t\t\tAND month = " ++ zfill 2 (toString end_month) ++ "\n" ++
      "\t\t\tAND day = " ++ zfill 2 (toString end_day) ++ "\n" ++
      "\t\t\tAND hour <= " ++ zfill 2 (toString end_hour) ++ ")\n"

/-- `build_athena_query_part_three_for_app_access_logs` (lines 368-406). -/
def build_athena_query_part_three_for_app_access_logs
    (error_threshold : Int) (start_timestamp : Datetime) : String :=
  "\n\t)\n" ++
    "\tSELECT\n" ++
    "\t\tclient_ip,\n" ++
    "\t\tCOUNT(*) as counter\n" ++
    "\tFROM\n" ++
    "\t\tlogs_with_concat_data\n" ++
    "\tWHERE\n" ++
    "\t\tdatetime > TIMESTAMP " ++
    "'" ++ Datetime.pyStr19 start_timestamp ++ "'" ++
    "\n\t\tAND status = ANY (VALUES '400', '401', '403', '404', '405')\n" ++
    "\tGROUP BY\n" ++
    "\t\tclient_ip,\n" ++
    "\t\tdate_trunc('minute', datetime)\n" ++
    "\tHAVING\n" ++
    "\t\tCOUNT(*) >= " ++
    toString error_threshold ++
    "\n) GROUP BY\n" ++
    "\tclient_ip\n" ++
    "ORDER BY\n" ++
    "\tmax_counter_per_min DESC\n" ++
    "LIMIT 10000;"

/-- The `request_threshold_for_country_string` built for one entry of the
per-country mapping inside the loop of `build_having_clause_for_waf_logs`
(line 435). -/
def having_country_clause (athena_query_run_schedule : Int)
    (p : String × Int) : String :=
  "\t\t(COUNT(*) >= " ++
    pyDivStr p.2 athena_query_run_schedule ++
    (" AND country = '" ++ (p.1 ++ "') OR \n"))

/-- One iteration of the loop of `build_having_clause_for_waf_logs`
(lines 432-437): extend the clause accumulator and the `NOT IN` country-list
accumulator. -/
def having_loop_step (athena_query_run_schedule : Int)
    (acc : String × String) (p : String × Int) : String × String :=
  (acc.1 ++ having_country_clause athena_query_run_schedule p,
   acc.2 ++ (("'" ++ p.1 ++ "'") ++ ","))

/-- `build_having_clause_for_waf_logs` (lines 409-448).  The division on
line 423 executes before the length test and the `json.loads` call, so a
zero schedule raises `ZeroDivisionError` first.  The per-country loop is the
fold of `having_loop_step` over the parsed mapping, accumulating the clause
string and the `NOT IN` country list exactly as the two Python accumulator
variables do. -/
def build_having_clause_for_waf_logs
    (default_request_threshold : Int)
    (request_threshold_by_country : String)
    (athena_query_run_schedule : Int) : Except PyErr String :=
  if athena_query_run_schedule = 0 then .error .divisionByZero
  else
    let request_threshold_calculated :=
      pyDivStr default_request_threshold athena_query_run_schedule
    let having_clause_string :=
      "\t\tCOUNT(*) >= " ++ request_threshold_calculated
    if 0 < request_threshold_by_country.length then
      match jsonLoads request_threshold_by_country with
      | none => .error .parseError
      | some request_threshold_by_country_json =>
        let acc := request_threshold_by_country_json.foldl
          (having_loop_step athena_query_run_schedule) ("", "")
        let not_in_country_string := pyDropLast acc.2 ++ "))"
        let not_in_country_start :=
          "\t\t(COUNT(*) >= " ++ request_threshold_calculated ++
            " AND country NOT IN ("
        .ok (acc.1 ++ (not_in_country_start ++ not_in_country_string))
    else .ok having_clause_string

/-- `build_athena_query_part_three_for_waf_logs` (lines 451-495). -/
def build_athena_query_part_three_for_waf_logs
    (default_request_threshold : Int)
    (request_threshold_by_country : String)
    (athena_query_run_schedule : Int)
    (additional_columns_group_two : String)
    (start_timestamp : Datetime) : Except PyErr String :=
  match build_having_clause_for_waf_logs default_request_threshold
      request_threshold_by_country athena_query_run_schedule with
  | .error e => .error e
  | .ok having_clause =>
    .ok ("\n\t)\n" ++
      "\tSELECT\n" ++
      "\t\tclient_ip" ++ additional_columns_group_two ++ ",\n" ++
      "\t\tCOUNT(*) as counter\n" ++
      "\tFROM\n" ++
      "\t\tlogs_with_concat_data\n" ++
      "\tWHERE\n" ++
      "\t\tdatetime > TIMESTAMP " ++
      "'" ++ Datetime.pyStr19 start_timestamp ++ "'" ++
      "\n\tGROUP BY\n" ++
      "\t\tclient_ip" ++ additional_columns_group_two ++ ",\n" ++
      "\t\tdate_trunc('minute', datetime)\n" ++
      "\tHAVING\n" ++
      having_clause ++
      "\n) GROUP BY\n" ++
      "\tclient_ip" ++ additional_columns_group_two ++ "\n" ++
      "ORDER BY\n" ++
      "\tmax_counter_per_min DESC\n" ++
      "LIMIT 10000;")

/-- `build_athena_query_for_app_access_logs` (lines 20-82). -/
def build_athena_query_for_app_access_logs
    (log_type database_name table_name : String)
    (end_timestamp : Datetime)
    (waf_block_period error_threshold : Int) : String :=
  let start_timestamp := end_timestamp.subSeconds (60 * waf_block_period)
  (if log_type = "CLOUDFRONT" then
      build_athena_query_part_one_for_cloudfront_logs database_name table_name
    else
      build_athena_query_part_one_for_alb_logs database_name table_name)
  ++ build_athena_query_part_two_for_partition start_timestamp end_timestamp
  ++ build_athena_query_part_three_for_app_access_logs error_threshold
      start_timestamp

/-- `build_athena_query_for_waf_logs` (lines 85-154). -/
def build_athena_query_for_waf_logs
    (database_name table_name : String)
    (end_timestamp : Datetime)
    (waf_block_period request_threshold : Int)
    (request_threshold_by_country : String)
    (group_by : String)
    (athena_query_run_schedule : Int) : Except PyErr String :=
  let start_timestamp := end_timestamp.subSeconds (60 * waf_block_period)
  match build_select_group_by_columns_for_waf_logs group_by
      request_threshold_by_country with
  | (additional_columns_group_one, additional_columns_group_two) =>
    match build_athena_query_part_three_for_waf_logs request_threshold
        request_threshold_by_country athena_query_run_schedule
        additional_columns_group_two start_timestamp with
    | .error e => .error e
    | .ok part_three =>
      .ok (build_athena_query_part_one_for_waf_logs database_name table_name
             additional_columns_group_one additional_columns_group_two
        ++ build_athena_query_part_two_for_partition start_timestamp
             end_timestamp
        ++ part_three)

/-! ## General lemmas about the string toolkit -/

theorem str_append_empty (s : String) : s ++ "" = s := by
  apply String.ext; rw [String.data_append]; exact List.append_nil _

/-- Concatenation of a list of strings, in order. -/
def strConcat : List String → String
  | [] => ""
  | x :: xs => x ++ strConcat xs

/-- Comma-separated concatenation of a list of strings. -/
def commaSep : List String → String
  | [] => ""
  | [x] => x
  | x :: xs => x ++ "," ++ commaSep xs

theorem strConcat_comma (l : List String) (h : l ≠ []) :
    strConcat (l.map (fun x => x ++ ",")) = commaSep l ++ "," := by
  induction l with
  | nil => exact absurd rfl h
  | cons x xs ih =>
    cases xs with
    | nil => simp [strConcat, commaSep, str_append_empty]
    | cons y ys =>
      show (x ++ ",") ++ strConcat ((y :: ys).map (fun x => x ++ ",")) =
        (x ++ "," ++ commaSep (y :: ys)) ++ ","
      rw [ih (by simp), ← String.append_assoc]

theorem pyDropLast_append_comma (s : String) : pyDropLast (s ++ ",") = s := by
  apply String.ext
  show ((s ++ ",").data).dropLast = s.data
  rw [String.data_append]
  exact List.dropLast_concat

theorem foldl_having_fst (k : Int) (d : List (String × Int)) :
    ∀ a b : String,
      (d.foldl (having_loop_step k) (a, b)).1 =
        a ++ strConcat (d.map (having_country_clause k)) := by
  induction d with
  | nil => intro a b; simp [strConcat, str_append_empty]
  | cons p t ih =>
    intro a b
    simp only [List.foldl, List.map, strConcat, having_loop_step, ih,
      String.append_assoc]

theorem foldl_having_snd (k : Int) (d : List (String × Int)) :
    ∀ a b : String,
      (d.foldl (having_loop_step k) (a, b)).2 =
        b ++ strConcat (d.map (fun p => ("'" ++ p.1 ++ "'") ++ ",")) := by
  induction d with
  | nil => intro a b; simp [strConcat, str_append_empty]
  | cons p t ih =>
    intro a b
    simp only [List.foldl, List.map, strConcat, having_loop_step, ih,
      String.append_assoc]

theorem str_nil_append (s : String) : "" ++ s = s := rfl

/-! ## Claim C1 -/

/-- Claim C1 (counterexample): with per-country thresholds given as the
two-character JSON text of the empty object, `build_having_clause_for_waf_logs`
does not return the single default clause.  The function tests emptiness on
the raw string length, so the per-country branch runs on the empty parsed
mapping and appends an empty `NOT IN ()` fallback. -/
theorem C1_empty_object_counterexample :
    build_having_clause_for_waf_logs 100 "\x7b\x7d" 5 =
      .ok "\t\t(COUNT(*) >= 20.0 AND country NOT IN ())" ∧
    ("\t\t(COUNT(*) >= 20.0 AND country NOT IN ())" : String) ≠
      "\t\tCOUNT(*) >= 20.0" :=
  ⟨rfl, by decide⟩

/-- Claim C1 (amended): for default rate 100, per-country thresholds given
as the empty string (the value the length test actually treats as "no
per-country thresholds"), and schedule 5, the function returns the single
default clause with rate `20.0` (preceded by its two tabs of indentation),
with no per-country or `NOT IN` fallback clause. -/
theorem C1_empty_string_default_clause :
    build_having_clause_for_waf_logs 100 "" 5 = .ok "\t\tCOUNT(*) >= 20.0" :=
  rfl

/-! ## Claim C2 -/

/-- Claim C2 (counterexample): in grouping mode `uri`, per-country thresholds
given as the two-character JSON text of the empty object do not produce the
uri-only fragments: the emptiness test is on the raw string length, so the
country-and-uri fragments come back. -/
theorem C2_uri_empty_object_counterexample :
    build_select_group_by_columns_for_waf_logs "uri" "\x7b\x7d" =
      ("httprequest.country as country, httprequest.uri as uri,",
        ", country, uri") ∧
    (("httprequest.country as country, httprequest.uri as uri,",
        ", country, uri") : String × String) ≠
      ("httprequest.uri as uri,", ", uri") :=
  ⟨rfl, by decide⟩

/-- Claim C2 (amended): in grouping mode `uri`,
`build_select_group_by_columns_for_waf_logs` returns the uri-only fragments
when the per-country thresholds string is empty, and the country-and-uri
fragments when it is the non-empty mapping text for US to 10. -/
theorem C2_uri_grouping_fragments :
    build_select_group_by_columns_for_waf_logs "uri" "" =
      ("httprequest.uri as uri,", ", uri") ∧
    build_select_group_by_columns_for_waf_logs "uri" "\x7b\"US\":10\x7d" =
      ("httprequest.country as country, httprequest.uri as uri,",
        ", country, uri") :=
  ⟨rfl, rfl⟩

/-! ## Claim C4 -/

/-- Claim C4 (counterexample): the claim requires a `ParseError` whenever the
thresholds string is malformed JSON, but with a malformed string and a zero
schedule the division on line 423 runs first, so the function fails with
`DivisionByZeroError` instead. -/
theorem C4_error_priority_counterexample :
    build_having_clause_for_waf_logs 100 "x" 0 = .error .divisionByZero ∧
    jsonLoads "x" = none ∧
    (Except.error PyErr.divisionByZero : Except PyErr String) ≠
      .error .parseError :=
  ⟨rfl, rfl, by simp⟩

/-- Claim C4 (amended): `build_having_clause_for_waf_logs` fails with
`DivisionByZeroError` exactly when the schedule is zero (that division runs
before anything else); with a non-zero schedule it fails with `ParseError`
exactly when the thresholds string is non-empty and malformed (the empty
string skips parsing entirely); otherwise it succeeds. -/
theorem C4_failure_characterization (dflt : Int) (s : String) (sched : Int) :
    (build_having_clause_for_waf_logs dflt s sched = .error .divisionByZero ↔
      sched = 0) ∧
    (sched ≠ 0 →
      (build_having_clause_for_waf_logs dflt s sched = .error .parseError ↔
        0 < s.length ∧ jsonLoads s = none)) ∧
    (sched ≠ 0 → ¬(0 < s.length ∧ jsonLoads s = none) →
      ∃ q, build_having_clause_for_waf_logs dflt s sched = .ok q) := by
  by_cases h0 : sched = 0
  · subst h0
    refine ⟨by simp [build_having_clause_for_waf_logs], ?_, ?_⟩
    · intro h; exact absurd rfl h
    · intro h; exact absurd rfl h
  · by_cases hl : 0 < s.length
    · cases hp : jsonLoads s with
      | none =>
        refine ⟨?_, ?_, ?_⟩
        · simp [build_having_clause_for_waf_logs, h0, hl, hp]
        · intro _; simp [build_having_clause_for_waf_logs, h0, hl, hp]
        · intro _ hc; exact absurd ⟨hl, rfl⟩ hc
      | some d =>
        refine ⟨?_, ?_, ?_⟩
        · simp [build_having_clause_for_waf_logs, h0, hl, hp]
        · intro _; simp [build_having_clause_for_waf_logs, h0, hl, hp]
        · intro _ _
          refine ⟨(List.foldl (having_loop_step sched) ("", "") d).1 ++
            ("\t\t(COUNT(*) >= " ++ pyDivStr dflt sched ++
              " AND country NOT IN (" ++
              (pyDropLast (List.foldl (having_loop_step sched) ("", "") d).2 ++
                "))")), ?_⟩
          simp [build_having_clause_for_waf_logs, h0, hl, hp]
    · refine ⟨?_, ?_, ?_⟩
      · simp [build_having_clause_for_waf_logs, h0, hl]
      · intro _; simp [build_having_clause_for_waf_logs, h0, hl]
      · intro _ _
        refine ⟨"\t\tCOUNT(*) >= " ++ pyDivStr dflt sched, ?_⟩
        simp [build_having_clause_for_waf_logs, h0, hl]

/-- Claim C4 (witness): at a concrete malformed string with a non-zero
schedule the amended characterization yields exactly a `ParseError`. -/
theorem C4_failure_characterization_witness :
    build_having_clause_for_waf_logs 100 "x" 5 = .error .parseError :=
  ((C4_failure_characterization 100 "x" 5).2.1 (by decide)).mpr
    ⟨by decide, rfl⟩

/-! ## Claim C5 -/

/-- Claim C5: for timestamps in order on the same calendar day, the partition
predicate is exactly the same-day template: one equality each on year, month
and day (month and day zero-padded to width 2) plus a single
`hour between` range with both hours zero-padded to width 2. -/
theorem C5_partition_same_day (a b : Datetime)
    (_hlt : Datetime.lt a b) (hsame : Datetime.sameDate a b) :
    build_athena_query_part_two_for_partition a b =
      "\n\t\tWHERE year = " ++ toString a.year ++ "\n" ++
        "\t\tAND month = " ++ zfill 2 (toString a.month) ++ "\n" ++
        "\t\tAND day = " ++ zfill 2 (toString a.day) ++ "\n" ++
        "\t\tAND hour between " ++
        zfill 2 (toString a.hour) ++ " and " ++ zfill 2 (toString b.hour) := by
  simp only [build_athena_query_part_two_for_partition]
  rw [if_pos hsame]

/-- Claim C5 (witness): the same-day template at a concrete window. -/
theorem C5_partition_same_day_witness :
    Datetime.lt ⟨2024, 1, 15, 9, 55, 0⟩ ⟨2024, 1, 15, 10, 0, 0⟩ ∧
    build_athena_query_part_two_for_partition
        ⟨2024, 1, 15, 9, 55, 0⟩ ⟨2024, 1, 15, 10, 0, 0⟩ =
      "\n\t\tWHERE year = 2024\n\t\tAND month = 01\n\t\tAND day = 15\n\t\tAND hour between 09 and 10" :=
  ⟨by decide,
    (C5_partition_same_day ⟨2024, 1, 15, 9, 55, 0⟩ ⟨2024, 1, 15, 10, 0, 0⟩
      (by decide) (by decide)).trans (by rfl)⟩

/-! ## Claim C6 -/

/-- Claim C6: for timestamps in order whose years differ, the partition
predicate is exactly two parenthesized disjuncts OR'd together, the first
fully qualified by the start year/month/day with an `hour >=` lower bound,
the second fully qualified by the end year/month/day with an `hour <=`
upper bound, with no shared year/month/day constraint. -/
theorem C6_partition_cross_year (a b : Datetime)
    (_hlt : Datetime.lt a b) (hyear : a.year ≠ b.year) :
    build_athena_query_part_two_for_partition a b =
      "\n\t\tWHERE (year = " ++ toString a.year ++ "\n" ++
        "\t\t\tAND month = " ++ zfill 2 (toString a.month) ++ "\n" ++
        "\t\t\tAND day = " ++ zfill 2 (toString a.day) ++ "\n" ++
        "\t\t\tAND hour >= " ++ zfill 2 (toString a.hour) ++ ")\n" ++
        "\t\tOR (year = " ++ toString b.year ++ "\n" ++
        "\t\t\tAND month = " ++ zfill 2 (toString b.month) ++ "\n" ++
        "\t\t\tAND day = " ++ zfill 2 (toString b.day) ++ "\n" ++
        "\t\t\tAND hour <= " ++ zfill 2 (toString b.hour) ++ ")\n" := by
  have hsame : ¬ Datetime.sameDate a b := fun h => hyear h.1
  simp only [build_athena_query_part_two_for_partition]
  rw [if_neg hsame, if_neg hyear]

/-- Claim C6 (witness): the cross-year template at a concrete window. -/
theorem C6_partition_cross_year_witness :
    Datetime.lt ⟨2023, 12, 31, 23, 59, 0⟩ ⟨2024, 1, 1, 0, 0, 0⟩ ∧
    build_athena_query_part_two_for_partition
        ⟨2023, 12, 31, 23, 59, 0⟩ ⟨2024, 1, 1, 0, 0, 0⟩ =
      "\n\t\tWHERE (year = 2023\n\t\t\tAND month = 12\n\t\t\tAND day = 31\n\t\t\tAND hour >= 23)\n\t\tOR (year = 2024\n\t\t\tAND month = 01\n\t\t\tAND day = 01\n\t\t\tAND hour <= 00)\n" :=
  ⟨by decide,
    (C6_partition_cross_year ⟨2023, 12, 31, 23, 59, 0⟩ ⟨2024, 1, 1, 0, 0, 0⟩
      (by decide) (by decide)).trans (by rfl)⟩

/-! ## Claim C3 -/

/-- On a non-zero schedule, a non-empty thresholds string and a successful
parse, the having clause is the fold value followed by the `NOT IN`
fallback. -/
theorem having_ok_of_parse (dflt sched : Int) (s : String)
    (d : List (String × Int)) (hsched : sched ≠ 0) (hlen : 0 < s.length)
    (hparse : jsonLoads s = some d) :
    build_having_clause_for_waf_logs dflt s sched =
      .ok ((List.foldl (having_loop_step sched) ("", "") d).1 ++
        ("\t\t(COUNT(*) >= " ++ pyDivStr dflt sched ++
            " AND country NOT IN (" ++
          (pyDropLast (List.foldl (having_loop_step sched) ("", "") d).2 ++
            "))"))) := by
  simp [build_having_clause_for_waf_logs, hsched, hlen, hparse]

/-- Claim C3: for every per-country mapping the thresholds string parses to,
when it is non-empty the having clause is, in the mapping's iteration order,
one clause `(COUNT(*) >= r AND country = 'c') OR ` per listed country with
`r` the true division of that country's rate by the schedule, concatenated
in order, followed by the fallback clause
`(COUNT(*) >= d AND country NOT IN (...))` listing every country
comma-separated, with `d` the normalized default rate. -/
theorem C3_having_per_country_structure (dflt sched : Int) (s : String)
    (d : List (String × Int)) (hsched : sched ≠ 0) (hlen : 0 < s.length)
    (hparse : jsonLoads s = some d) (hd : d ≠ []) :
    build_having_clause_for_waf_logs dflt s sched =
      .ok (strConcat (d.map (fun p =>
            "\t\t(COUNT(*) >= " ++ pyDivStr p.2 sched ++
              (" AND country = '" ++ (p.1 ++ "') OR \n")))) ++
        ("\t\t(COUNT(*) >= " ++ pyDivStr dflt sched ++
            " AND country NOT IN (" ++
          (commaSep (d.map (fun p => "'" ++ p.1 ++ "'")) ++ "))"))) := by
  rw [having_ok_of_parse dflt sched s d hsched hlen hparse,
    foldl_having_fst, foldl_having_snd]
  have h3 : d.map (fun p : String × Int => ("'" ++ p.1 ++ "'") ++ ",") =
      (d.map (fun p : String × Int => "'" ++ p.1 ++ "'")).map
        (fun x => x ++ ",") := by
    rw [List.map_map]; rfl
  rw [str_nil_append, str_nil_append, h3,
    strConcat_comma _ (by simpa using hd), pyDropLast_append_comma]
  rfl

/-- Claim C3 (witness): default 100, the US-to-50 mapping, schedule 5: a
`country = 'US'` clause with rate 10.0 followed by a `NOT IN ('US')`
fallback with rate 20.0. -/
theorem C3_having_per_country_structure_witness :
    jsonLoads "\x7b\"US\": 50\x7d" = some [("US", 50)] ∧
    build_having_clause_for_waf_logs 100 "\x7b\"US\": 50\x7d" 5 =
      .ok "\t\t(COUNT(*) >= 10.0 AND country = 'US') OR \n\t\t(COUNT(*) >= 20.0 AND country NOT IN ('US'))" :=
  ⟨rfl,
    (C3_having_per_country_structure 100 5 "\x7b\"US\": 50\x7d" [("US", 50)]
      (by decide) (by decide) rfl (by decide)).trans (by rfl)⟩

/-! ## Claim C7 -/

set_option maxRecDepth 100000 in
/-- Claim C7: for every error threshold and start timestamp, the app-access
part-three fragment filters on exactly the statuses
`'400','401','403','404','405'`, has the literal (not rate-normalized)
HAVING clause `COUNT(*) >= threshold`, orders by `max_counter_per_min DESC`,
and ends with `LIMIT 10000;`. -/
theorem C7_app_part_three_shape (error_threshold : Int)
    (start_timestamp : Datetime) :
    (∃ u v, build_athena_query_part_three_for_app_access_logs error_threshold
          start_timestamp =
        u ++ ("\n\t\tAND status = ANY (VALUES '400', '401', '403', '404', '405')\n" ++ v)) ∧
    (∃ u v, build_athena_query_part_three_for_app_access_logs error_threshold
          start_timestamp =
        u ++ ("\tHAVING\n\t\tCOUNT(*) >= " ++
          (toString error_threshold ++ ("\n) GROUP BY\n" ++ v)))) ∧
    (∃ u v, build_athena_query_part_three_for_app_access_logs error_threshold
          start_timestamp =
        u ++ ("ORDER BY\n\tmax_counter_per_min DESC\n" ++ v)) ∧
    (∃ u, build_athena_query_part_three_for_app_access_logs error_threshold
          start_timestamp =
        u ++ "LIMIT 10000;") := by
  refine ⟨⟨"\n\t)\n\tSELECT\n\t\tclient_ip,\n\t\tCOUNT(*) as counter\n\tFROM\n\t\tlogs_with_concat_data\n\tWHERE\n\t\tdatetime > TIMESTAMP '" ++
      Datetime.pyStr19 start_timestamp ++ "'",
    "\tGROUP BY\n\t\tclient_ip,\n\t\tdate_trunc('minute', datetime)\n\tHAVING\n\t\tCOUNT(*) >= " ++
      toString error_threshold ++
      "\n) GROUP BY\n\tclient_ip\nORDER BY\n\tmax_counter_per_min DESC\nLIMIT 10000;", ?_⟩,
    ⟨"\n\t)\n\tSELECT\n\t\tclient_ip,\n\t\tCOUNT(*) as counter\n\tFROM\n\t\tlogs_with_concat_data\n\tWHERE\n\t\tdatetime > TIMESTAMP '" ++
      Datetime.pyStr19 start_timestamp ++
      "'\n\t\tAND status = ANY (VALUES '400', '401', '403', '404', '405')\n\tGROUP BY\n\t\tclient_ip,\n\t\tdate_trunc('minute', datetime)\n",
    "\tclient_ip\nORDER BY\n\tmax_counter_per_min DESC\nLIMIT 10000;", ?_⟩,
    ⟨"\n\t)\n\tSELECT\n\t\tclient_ip,\n\t\tCOUNT(*) as counter\n\tFROM\n\t\tlogs_with_concat_data\n\tWHERE\n\t\tdatetime > TIMESTAMP '" ++
      Datetime.pyStr19 start_timestamp ++
      "'\n\t\tAND status = ANY (VALUES '400', '401', '403', '404', '405')\n\tGROUP BY\n\t\tclient_ip,\n\t\tdate_trunc('minute', datetime)\n\tHAVING\n\t\tCOUNT(*) >= " ++
      toString error_threshold ++ "\n) GROUP BY\n\tclient_ip\n",
    "LIMIT 10000;", ?_⟩,
    ⟨"\n\t)\n\tSELECT\n\t\tclient_ip,\n\t\tCOUNT(*) as counter\n\tFROM\n\t\tlogs_with_concat_data\n\tWHERE\n\t\tdatetime > TIMESTAMP '" ++
      Datetime.pyStr19 start_timestamp ++
      "'\n\t\tAND status = ANY (VALUES '400', '401', '403', '404', '405')\n\tGROUP BY\n\t\tclient_ip,\n\t\tdate_trunc('minute', datetime)\n\tHAVING\n\t\tCOUNT(*) >= " ++
      toString error_threshold ++
      "\n) GROUP BY\n\tclient_ip\nORDER BY\n\tmax_counter_per_min DESC\n", ?_⟩⟩ <;>
    simp only [build_athena_query_part_three_for_app_access_logs,
      String.append_assoc] <;> rfl

/-! ## Claim C9 -/

/-- Claim C9: both public entry points are deterministic — equal argument
tuples give byte-identical query strings. -/
theorem C9_determinism :
    (∀ (lt₁ db tbl : String) (ts : Datetime) (wbp et : Int)
       (lt₂ db' tbl' : String) (ts' : Datetime) (wbp' et' : Int),
      (lt₁, db, tbl, ts, wbp, et) = (lt₂, db', tbl', ts', wbp', et') →
      build_athena_query_for_app_access_logs lt₁ db tbl ts wbp et =
        build_athena_query_for_app_access_logs lt₂ db' tbl' ts' wbp' et') ∧
    (∀ (db tbl : String) (ts : Datetime) (wbp rt : Int) (rc gb : String)
       (sc : Int) (db' tbl' : String) (ts' : Datetime) (wbp' rt' : Int)
       (rc' gb' : String) (sc' : Int),
      (db, tbl, ts, wbp, rt, rc, gb, sc) =
        (db', tbl', ts', wbp', rt', rc', gb', sc') →
      build_athena_query_for_waf_logs db tbl ts wbp rt rc gb sc =
        build_athena_query_for_waf_logs db' tbl' ts' wbp' rt' rc' gb' sc') := by
  constructor
  · intro lt₁ db tbl ts wbp et lt₂ db' tbl' ts' wbp' et' h
    cases h; rfl
  · intro db tbl ts wbp rt rc gb sc db' tbl' ts' wbp' rt' rc' gb' sc' h
    cases h; rfl

/-- Claim C9 (witness): determinism applied at concrete argument tuples. -/
theorem C9_determinism_witness :
    build_athena_query_for_app_access_logs "CLOUDFRONT" "db" "tbl"
        ⟨2024, 1, 15, 10, 0, 0⟩ 5 100 =
      build_athena_query_for_app_access_logs "CLOUDFRONT" "db" "tbl"
        ⟨2024, 1, 15, 10, 0, 0⟩ 5 100 ∧
    build_athena_query_for_waf_logs "db" "tbl" ⟨2024, 1, 15, 10, 0, 0⟩
        5 100 "" "none" 5 =
      build_athena_query_for_waf_logs "db" "tbl" ⟨2024, 1, 15, 10, 0, 0⟩
        5 100 "" "none" 5 :=
  ⟨C9_determinism.1 "CLOUDFRONT" "db" "tbl" ⟨2024, 1, 15, 10, 0, 0⟩ 5 100
      "CLOUDFRONT" "db" "tbl" ⟨2024, 1, 15, 10, 0, 0⟩ 5 100 rfl,
    C9_determinism.2 "db" "tbl" ⟨2024, 1, 15, 10, 0, 0⟩ 5 100 "" "none" 5
      "db" "tbl" ⟨2024, 1, 15, 10, 0, 0⟩ 5 100 "" "none" 5 rfl⟩

/-! ## Claim C8 -/

/-- Boolean prefix test on character lists. -/
def charListPrefix : List Char → List Char → Bool
  | [], _ => true
  | _ :: _, [] => false
  | a :: as, b :: bs => a == b && charListPrefix as bs

/-- Boolean infix (substring) test on character lists. -/
def charListInfix (needle : List Char) : List Char → Bool
  | [] => charListPrefix needle []
  | c :: t => charListPrefix needle (c :: t) || charListInfix needle t

/-- `needle` occurs as a contiguous substring of `hay`. -/
def strContains (hay needle : String) : Bool :=
  charListInfix needle.data hay.data

/-- `suffix` ends `hay`. -/
def strEndsWith (hay suffix : String) : Bool :=
  charListPrefix suffix.data.reverse hay.data.reverse

set_option maxRecDepth 1000000 in
/-- Claim C8: the CLOUDFRONT app-access query for database `db`, table
`tbl`, end timestamp 2024-01-15T10:00:00, block period 5 and error
threshold 100 contains `FROM` followed by a newline and three tabs and
`db.tbl`, contains the same-day partition filter for 2024-01-15 hours
09 to 10, contains `COUNT(*) >= 100`, and ends with `LIMIT 10000;`. -/
theorem C8_end_to_end_cloudfront :
    strContains
        (build_athena_query_for_app_access_logs "CLOUDFRONT" "db" "tbl"
          ⟨2024, 1, 15, 10, 0, 0⟩ 5 100)
        "FROM\n\t\t\tdb.tbl" = true ∧
    strContains
        (build_athena_query_for_app_access_logs "CLOUDFRONT" "db" "tbl"
          ⟨2024, 1, 15, 10, 0, 0⟩ 5 100)
        "\n\t\tWHERE year = 2024\n\t\tAND month = 01\n\t\tAND day = 15\n\t\tAND hour between 09 and 10" = true ∧
    strContains
        (build_athena_query_for_app_access_logs "CLOUDFRONT" "db" "tbl"
          ⟨2024, 1, 15, 10, 0, 0⟩ 5 100)
        "COUNT(*) >= 100" = true ∧
    strEndsWith
        (build_athena_query_for_app_access_logs "CLOUDFRONT" "db" "tbl"
          ⟨2024, 1, 15, 10, 0, 0⟩ 5 100)
        "LIMIT 10000;" = true :=
  ⟨rfl, rfl, rfl, rfl⟩

/-! ## Claim C10 -/

set_option maxRecDepth 1000000 in
/-- Claim C10: the forced-country fallback fires only when the grouping mode
lower-cases exactly to `none`.  Any mode lower-casing to none of `none`,
`country`, `uri`, `country and uri`, together with a non-empty per-country
thresholds string, yields two empty fragments, so the WAF query selects and
groups by `client_ip` only (outer select, inner and outer GROUP BY) while
its HAVING clause still references the column `country`. -/
theorem C10_unrecognized_mode_fallback (group_by s : String)
    (hmode : ¬(pyLower group_by = "none" ∨ pyLower group_by = "country" ∨
      pyLower group_by = "uri" ∨ pyLower group_by = "country and uri"))
    (hs : 0 < s.length) :
    build_select_group_by_columns_for_waf_logs group_by s = ("", "") ∧
    (∀ (db tbl : String) (ts : Datetime) (wbp dflt sched : Int)
       (d : List (String × Int)), sched ≠ 0 → jsonLoads s = some d →
      ∃ hv,
        build_having_clause_for_waf_logs dflt s sched = .ok hv ∧
        build_athena_query_for_waf_logs db tbl ts wbp dflt s group_by sched =
          .ok (build_athena_query_part_one_for_waf_logs db tbl "" "" ++
            build_athena_query_part_two_for_partition
              (Datetime.subSeconds ts (60 * wbp)) ts ++
            ("\n\t)\n\tSELECT\n\t\tclient_ip,\n\t\tCOUNT(*) as counter\n\tFROM\n\t\tlogs_with_concat_data\n\tWHERE\n\t\tdatetime > TIMESTAMP '" ++
              Datetime.pyStr19 (Datetime.subSeconds ts (60 * wbp)) ++
              ("'\n\tGROUP BY\n\t\tclient_ip,\n\t\tdate_trunc('minute', datetime)\n\tHAVING\n" ++
                (hv ++
                  "\n) GROUP BY\n\tclient_ip\nORDER BY\n\tmax_counter_per_min DESC\nLIMIT 10000;")))) ∧
        build_athena_query_part_one_for_waf_logs db tbl "" "" =
          "SELECT\n\tclient_ip,\n\tMAX_BY(counter, counter) as max_counter_per_min\n FROM (\n\tWITH logs_with_concat_data AS (\n\t\tSELECT\n\t\t\thttprequest.clientip as client_ip,\n\t\t\tfrom_unixtime(timestamp/1000) as datetime\n\t\tFROM\n\t\t\t" ++
            (db ++ ("." ++ tbl)) ∧
        (∃ u v, hv = u ++ (" AND country " ++ v))) := by
  have h1 : ¬ pyLower group_by = "none" := fun h => hmode (Or.inl h)
  have h2 : ¬ pyLower group_by = "country" := fun h => hmode (Or.inr (Or.inl h))
  have h3 : ¬ pyLower group_by = "uri" :=
    fun h => hmode (Or.inr (Or.inr (Or.inl h)))
  have h4 : ¬ pyLower group_by = "country and uri" :=
    fun h => hmode (Or.inr (Or.inr (Or.inr h)))
  have hfrag : build_select_group_by_columns_for_waf_logs group_by s =
      ("", "") := by
    simp only [build_select_group_by_columns_for_waf_logs]
    rw [if_neg (fun hc => by
        cases hc with
        | inl h => exact h2 h
        | inr h => exact h1 h.1),
      if_neg h3, if_neg h4]
  refine ⟨hfrag, ?_⟩
  intro db tbl ts wbp dflt sched d hsched hparse
  have hhv := having_ok_of_parse dflt sched s d hsched hs hparse
  refine ⟨_, hhv, ?_, ?_, ?_⟩
  · simp only [build_athena_query_for_waf_logs,
      build_athena_query_part_three_for_waf_logs, hfrag, hhv,
      String.append_assoc]
    rfl
  · simp only [build_athena_query_part_one_for_waf_logs,
      String.append_assoc]
    rfl
  · cases d with
    | nil =>
      refine ⟨"\t\t(COUNT(*) >= " ++ pyDivStr dflt sched, "NOT IN ())", ?_⟩
      simp only [List.foldl, String.append_assoc]
      rfl
    | cons p t =>
      refine ⟨"\t\t(COUNT(*) >= " ++ pyDivStr p.2 sched,
        "= '" ++ (p.1 ++ ("') OR \n" ++
          (strConcat (t.map (having_country_clause sched)) ++
            ("\t\t(COUNT(*) >= " ++ pyDivStr dflt sched ++
                " AND country NOT IN (" ++
              (pyDropLast
                  (List.foldl (having_loop_step sched) ("", "") (p :: t)).2 ++
                "))"))))), ?_⟩
      rw [foldl_having_fst]
      simp only [List.map, strConcat, having_country_clause,
        String.append_assoc, str_nil_append]
      rfl

/-- Claim C10 (witness): mode `ip` (unrecognized) with the US-to-50 mapping
gives empty fragments while the having clause still names `country`. -/
theorem C10_unrecognized_mode_fallback_witness :
    build_select_group_by_columns_for_waf_logs "ip" "\x7b\"US\": 50\x7d" =
      ("", "") ∧
    (∃ hv, build_having_clause_for_waf_logs 100 "\x7b\"US\": 50\x7d" 5 =
        .ok hv ∧ ∃ u v, hv = u ++ (" AND country " ++ v)) := by
  have h := C10_unrecognized_mode_fallback "ip" "\x7b\"US\": 50\x7d"
    (by decide) (by decide)
  obtain ⟨hv, hok, _, _, hc⟩ :=
    h.2 "db" "tbl" ⟨2024, 1, 15, 10, 0, 0⟩ 5 100 5 [("US", 50)]
      (by decide) rfl
  exact ⟨h.1, hv, hok, hc⟩
